import Mathlib

/-!
Verification development for the e-commerce recommendation engine.

The repository's core is the recommendation pipeline in
`src/services/llm_service.py`: prompt construction, model invocation,
response parsing and caching.  We shallowly embed that pipeline together
with `filter_products` (src/app.py) and `get_product_by_id`
(src/services/product_service.py).

Modelling conventions:
 * Python dict/list JSON values are the inductive type `Json`; `json.loads`
   is the executable fuel-based parser `json_loads`, returning `none` for
   `json.JSONDecodeError`.
 * Exceptions that escape a function are `Except String`; the only caught
   exceptions are `json.JSONDecodeError` inside the parser and any
   exception of `_call_llm` inside `generate_recommendations`, exactly as
   in the source.
 * The remote service `replicate.run` (streaming chunks) is an oracle
   parameter `run : String → Except String (List String)`; `hashlib.md5
   ... hexdigest` is an abstract parameter `md5hex : String → String`.
   Claims are proved for every oracle and every hash function.
-/

set_option maxRecDepth 4000

/-- JSON values as produced by `json.loads`.  Objects keep their key/value
pairs in textual order; numbers are rationals. -/
inductive Json where
  | null : Json
  | bool : Bool → Json
  | num : ℚ → Json
  | str : String → Json
  | arr : List Json → Json
  | obj : List (String × Json) → Json

/-- Whitespace skipped by the JSON grammar. -/
def jsonWs (c : Char) : Bool :=
  c = ' ' || c = '\t' || c = '\n' || c = '\r'

/-- Drop leading JSON whitespace. -/
def skipWs : List Char → List Char
  | [] => []
  | c :: rest => if jsonWs c then skipWs rest else c :: rest

/-- Value of a hexadecimal digit. -/
def hexVal (c : Char) : Option Nat :=
  if c.isDigit then some (c.toNat - 48)
  else if 'a' ≤ c && c ≤ 'f' then some (c.toNat - 87)
  else if 'A' ≤ c && c ≤ 'F' then some (c.toNat - 55)
  else none

/-- One-character JSON escape sequences. -/
def escChar (c : Char) : Option Char :=
  if c = '"' then some '"'
  else if c = '\\' then some '\\'
  else if c = '/' then some '/'
  else if c = 'b' then some (Char.ofNat 8)
  else if c = 'f' then some (Char.ofNat 12)
  else if c = 'n' then some '\n'
  else if c = 'r' then some '\r'
  else if c = 't' then some '\t'
  else none

/-- Parse the body of a JSON string literal (the opening quote already
consumed); returns the decoded characters and the rest of the input. -/
def parseStringChars : List Char → Option (List Char × List Char)
  | [] => none
  | '"' :: rest => some ([], rest)
  | '\\' :: 'u' :: h1 :: h2 :: h3 :: h4 :: rest =>
    match hexVal h1, hexVal h2, hexVal h3, hexVal h4 with
    | some a, some b, some c, some d =>
      (parseStringChars rest).map
        (fun p => (Char.ofNat (((a * 16 + b) * 16 + c) * 16 + d) :: p.1, p.2))
    | _, _, _, _ => none
  | '\\' :: e :: rest =>
    match escChar e with
    | some ch => (parseStringChars rest).map (fun p => (ch :: p.1, p.2))
    | none => none
  | c :: rest => (parseStringChars rest).map (fun p => (c :: p.1, p.2))

/-- Longest prefix of decimal digits. -/
def takeDigits : List Char → List Char × List Char
  | [] => ([], [])
  | c :: rest =>
    if c.isDigit then
      let p := takeDigits rest
      (c :: p.1, p.2)
    else ([], c :: rest)

/-- Decimal digits to a natural number. -/
def digitsToNat (ds : List Char) : Nat :=
  ds.foldl (fun a c => a * 10 + (c.toNat - 48)) 0

/-- Optional exponent part of a JSON number; `(0, cs)` when absent. -/
def parseExpPart (cs : List Char) : Option (Int × List Char) :=
  match cs with
  | 'e' :: r => parseSigned r
  | 'E' :: r => parseSigned r
  | _ => some (0, cs)
where
  parseSigned (r : List Char) : Option (Int × List Char) :=
    let sr : Bool × List Char :=
      match r with
      | '-' :: r2 => (true, r2)
      | '+' :: r2 => (false, r2)
      | _ => (false, r)
    let p := takeDigits sr.2
    if p.1.isEmpty then none
    else some (if sr.1 then -(digitsToNat p.1 : Int) else (digitsToNat p.1 : Int), p.2)

/-- Assemble a rational from sign, integer digits, fraction digits and
exponent.  The fraction-free non-negative-exponent case is computed in ℤ
and cast, so that integer literals such as "8" reduce definitionally; the
general case uses rational arithmetic and denotes the same decimal
value. -/
def mkNum (neg : Bool) (ints fracs : List Char) (ex : Int) : ℚ :=
  if fracs.isEmpty ∧ 0 ≤ ex then
    (((if neg then -(digitsToNat ints : Int) else (digitsToNat ints : Int)) *
        (10 : Int) ^ ex.toNat : Int) : ℚ)
  else
    let mant : ℚ := (digitsToNat ints : ℚ) + (digitsToNat fracs : ℚ) / (10 : ℚ) ^ fracs.length
    let m : ℚ := if neg then -mant else mant
    if 0 ≤ ex then m * (10 : ℚ) ^ ex.toNat else m / (10 : ℚ) ^ (-ex).toNat

/-- Parse a JSON number at the head of the input. -/
def parseNumber (cs : List Char) : Option (Json × List Char) :=
  let signed : Bool × List Char :=
    match cs with
    | '-' :: r => (true, r)
    | _ => (false, cs)
  let ip := takeDigits signed.2
  if ip.1.isEmpty then none
  else
    match ip.2 with
    | '.' :: r =>
      let fp := takeDigits r
      if fp.1.isEmpty then none
      else
        match parseExpPart fp.2 with
        | some (ex, rest) => some (Json.num (mkNum signed.1 ip.1 fp.1 ex), rest)
        | none => none
    | _ =>
      match parseExpPart ip.2 with
      | some (ex, rest) => some (Json.num (mkNum signed.1 ip.1 [] ex), rest)
      | none => none

/-- Parser state: a single value, the items of an array, or the members of
an object (with the items already read). -/
inductive PState where
  | val : PState
  | arrItems : List Json → PState
  | objItems : List (String × Json) → PState

/-- Fuel-indexed recursive-descent JSON parser.  `parseCore fuel .val cs`
parses one JSON value at the head of `cs` and returns it with the
remaining input. -/
def parseCore : Nat → PState → List Char → Option (Json × List Char)
  | 0, _, _ => none
  | Nat.succ fuel, PState.val, cs =>
    match skipWs cs with
    | [] => none
    | '[' :: rest =>
      (match skipWs rest with
       | ']' :: rest2 => some (Json.arr [], rest2)
       | other => parseCore fuel (PState.arrItems []) other)
    | '{' :: rest =>
      (match skipWs rest with
       | '}' :: rest2 => some (Json.obj [], rest2)
       | other => parseCore fuel (PState.objItems []) other)
    | '"' :: rest =>
      (parseStringChars rest).map (fun p => (Json.str (String.mk p.1), p.2))
    | 't' :: 'r' :: 'u' :: 'e' :: rest => some (Json.bool true, rest)
    | 'f' :: 'a' :: 'l' :: 's' :: 'e' :: rest => some (Json.bool false, rest)
    | 'n' :: 'u' :: 'l' :: 'l' :: rest => some (Json.null, rest)
    | other => parseNumber other
  | Nat.succ fuel, PState.arrItems acc, cs =>
    match parseCore fuel PState.val cs with
    | none => none
    | some (v, rest) =>
      match skipWs rest with
      | ',' :: rest2 => parseCore fuel (PState.arrItems (acc ++ [v])) rest2
      | ']' :: rest2 => some (Json.arr (acc ++ [v]), rest2)
      | _ => none
  | Nat.succ fuel, PState.objItems acc, cs =>
    match skipWs cs with
    | '"' :: rest =>
      (match parseStringChars rest with
       | none => none
       | some (k, rest1) =>
         match skipWs rest1 with
         | ':' :: rest2 =>
           (match parseCore fuel PState.val rest2 with
            | none => none
            | some (v, rest3) =>
              match skipWs rest3 with
              | ',' :: rest4 => parseCore fuel (PState.objItems (acc ++ [(String.mk k, v)])) rest4
              | '}' :: rest4 => some (Json.obj (acc ++ [(String.mk k, v)]), rest4)
              | _ => none)
         | _ => none)
    | _ => none

/-- `json.loads`: parse a complete JSON document; `none` models
`json.JSONDecodeError` (including trailing data). -/
def json_loads (s : String) : Option Json :=
  let cs := s.toList
  match parseCore (4 * cs.length + 8) PState.val cs with
  | some (v, rest) => if (skipWs rest).isEmpty then some v else none
  | none => none

/-- Python `dict.get` on an object decoded by `json.loads`: with duplicate
keys in the JSON text the last occurrence wins, as in CPython. -/
def jget (fields : List (String × Json)) (k : String) : Option Json :=
  match fields with
  | [] => none
  | p :: rest =>
    match jget rest k with
    | some v => some v
    | none => if p.1 = k then some p.2 else none

/-- A catalog product record (src/app.py data model; the spec's Product). -/
structure Product where
  id : String
  name : String
  category : String
  brand : String
  price : ℚ
  tags : List String
deriving DecidableEq

/-- User preferences as built by the sidebar in src/app.py. -/
structure Preferences where
  priceRange : String
  categories : List String
  brands : List String
deriving DecidableEq

/-- One entry of the parser's output: the resolved catalog product plus the
explanation and confidence score taken verbatim from the model's JSON. -/
structure Recommendation where
  product : Product
  explanation : Json
  confidence_score : Json

/-- The dict returned by `generate_recommendations`: `error = none` models
the absence of the "error" key. -/
structure RecommendationResult where
  recommendations : List Recommendation
  count : Nat
  error : Option String

/-- The pipeline's state: `self.cache`, a dict from md5 hex key to result. -/
structure LLMService where
  cache : List (String × RecommendationResult)

/-- Python `p["id"] == pid` where `pid` is `item.get("id")`: true only when
`pid` is a JSON string equal to the product id (str never equals None,
numbers, lists or dicts in Python). -/
def idMatches (pid : Option Json) (s : String) : Bool :=
  match pid with
  | some (Json.str t) => s = t
  | _ => false

/-- Four lowercase hex digits, for \uXXXX escapes in `json.dumps` output. -/
def hex4 (n : Nat) : String :=
  let d := fun (k : Nat) =>
    let m := n / 16 ^ k % 16
    if m < 10 then Char.ofNat (48 + m) else Char.ofNat (87 + m)
  String.mk [d 3, d 2, d 1, d 0]

/-- `json.dumps` escaping of one character (ensure_ascii=True default). -/
def escapeJsonChar (c : Char) : String :=
  if c = '"' then "\\\""
  else if c = '\\' then "\\\\"
  else if c = '\n' then "\\n"
  else if c = '\t' then "\\t"
  else if c = '\r' then "\\r"
  else if c.toNat = 8 then "\\b"
  else if c.toNat = 12 then "\\f"
  else if c.toNat < 32 || 126 < c.toNat then "\\u" ++ hex4 c.toNat
  else String.mk [c]

/-- `json.dumps` rendering of a string value. -/
def renderStr (s : String) : String :=
  "\"" ++ String.join (s.toList.map escapeJsonChar) ++ "\""

/-- `n` spaces. -/
def indentStr (n : Nat) : String :=
  String.mk (List.replicate n ' ')

/-- `json.dumps(xs, indent=2)` for a list of strings nested at indentation
`ind`. -/
def dumpsStrList (ind : Nat) (xs : List String) : String :=
  match xs with
  | [] => "[]"
  | _ =>
    "[\n" ++ String.intercalate ",\n" (xs.map (fun s => indentStr (ind + 2) ++ renderStr s)) ++
    "\n" ++ indentStr ind ++ "]"

/-- Decimal rendering of a price, as `json.dumps` renders the number. -/
def renderPrice (q : ℚ) : String :=
  if q.den = 1 then toString q.num
  else
    match (List.range 18).find? (fun k => (q * (10 : ℚ) ^ k).den = 1) with
    | some k =>
      let n := (q * (10 : ℚ) ^ k).num
      let sign := if n < 0 then "-" else ""
      let a := n.natAbs
      let fs := toString (a % 10 ^ k)
      let pad := String.mk (List.replicate (k - fs.length) '0')
      sign ++ toString (a / 10 ^ k) ++ "." ++ pad ++ fs
    | none => toString q.num ++ "/" ++ toString q.den

/-- `json.dumps(product, indent=2)` for one product dict nested at
indentation `ind`, keys in catalog-file order. -/
def dumpsProduct (ind : Nat) (p : Product) : String :=
  let i2 := indentStr (ind + 2)
  "\x7b\n" ++
  i2 ++ "\"id\": " ++ renderStr p.id ++ ",\n" ++
  i2 ++ "\"name\": " ++ renderStr p.name ++ ",\n" ++
  i2 ++ "\"category\": " ++ renderStr p.category ++ ",\n" ++
  i2 ++ "\"price\": " ++ renderPrice p.price ++ ",\n" ++
  i2 ++ "\"brand\": " ++ renderStr p.brand ++ ",\n" ++
  i2 ++ "\"tags\": " ++ dumpsStrList (ind + 2) p.tags ++ "\n" ++
  indentStr ind ++ "\x7d"

/-- `json.dumps(products, indent=2)` for the product sample list. -/
def dumpsProducts (xs : List Product) : String :=
  match xs with
  | [] => "[]"
  | _ =>
    "[\n" ++ String.intercalate ",\n" (xs.map (fun p => indentStr 2 ++ dumpsProduct 2 p)) ++ "\n]"

/-- `json.dumps(preferences, indent=2)`: the preferences dict in its
insertion order priceRange, categories, brands. -/
def dumpsPrefs (p : Preferences) : String :=
  "\x7b\n" ++
  "  \"priceRange\": " ++ renderStr p.priceRange ++ ",\n" ++
  "  \"categories\": " ++ dumpsStrList 2 p.categories ++ ",\n" ++
  "  \"brands\": " ++ dumpsStrList 2 p.brands ++ "\n" ++
  "\x7d"

/-- `LLMService._create_recommendation_prompt` (src/services/llm_service.py
lines 23-37): serialize preferences, history and the first five products
into the instruction string, then strip it. -/
def _create_recommendation_prompt (preferences : Preferences) (browsing_history : List String)
    (products : List Product) : String :=
  let sample_products := products.take 5
  let prompt :=
    "User Preferences:\n" ++ dumpsPrefs preferences ++ "\n\n" ++
    "Browsing History:\n" ++ dumpsStrList 0 browsing_history ++ "\n\n" ++
    "Available Products (sample):\n" ++ dumpsProducts sample_products ++ "\n\n" ++
    "Please recommend between 3 to 5 products that best match these preferences and browsing history. " ++
    "For each recommendation, provide the product ID, a brief explanation, and a confidence score (1-10). " ++
    "Output only valid JSON in the following format:\n" ++
    "[\x7b\"id\": \"prodXYZ\", \"explanation\": \"Because...\", \"confidence_score\": 8\x7d, ...]"
  prompt.trim

/-- `LLMService._call_llm` (lines 39-64): concatenate the streamed chunks of
`replicate.run` in arrival order; any failure is re-raised as a
RuntimeError wrapping the cause message.  The remote service is the oracle
`run`. -/
def _call_llm (run : String → Except String (List String)) (prompt : String) :
    Except String String :=
  match run prompt with
  | Except.ok chunks => Except.ok (String.join chunks)
  | Except.error e => Except.error ("Error calling Replicate model: " ++ e)

/-- Python `str.find(c)`: index of the first occurrence (`none` models -1). -/
def str_find (cs : List Char) (c : Char) : Option Nat :=
  cs.findIdx? (fun x => x = c)

/-- Python `str.rfind(c)`: index of the last occurrence (`none` models -1). -/
def str_rfind (cs : List Char) (c : Char) : Option Nat :=
  match str_find cs.reverse c with
  | some i => some (cs.length - 1 - i)
  | none => none

/-- The for-loop of `_parse_recommendation_response` (lines 91-104): for
each array element read `id`, `explanation` (default ""), and
`confidence_score` (default 5) with `dict.get`, resolve the id against the
catalog with `next(...)`, keep resolved items in order and skip the rest.
A non-dict element raises AttributeError at `item.get`, modelled as
`Except.error`. -/
def parseItems (products : List Product) : List Json → Except String (List Recommendation)
  | [] => Except.ok []
  | item :: rest =>
    match item with
    | Json.obj fields =>
      let pid := jget fields "id"
      let explanation := (jget fields "explanation").getD (Json.str "")
      let score := (jget fields "confidence_score").getD (Json.num 5)
      match products.find? (fun p => idMatches pid p.id) with
      | some product_data =>
        (parseItems products rest).map
          (fun recs =>
            { product := product_data, explanation := explanation,
              confidence_score := score } :: recs)
      | none => parseItems products rest
    | _ => Except.error "AttributeError: object has no attribute get"

/-- `LLMService._parse_recommendation_response` (lines 66-104): slice the
raw text from the first '[' to the last ']', `json.loads` it
(JSONDecodeError caught, yielding []), return [] unless the result is a
list, then run the item loop. -/
def _parse_recommendation_response (raw_text : String) (products : List Product) :
    Except String (List Recommendation) :=
  let cs := raw_text.toList
  match str_find cs '[', str_rfind cs ']' with
  | some start, some stop =>
    let json_text := String.mk ((cs.drop start).take (stop + 1 - start))
    match json_loads json_text with
    | none => Except.ok []
    | some parsed =>
      match parsed with
      | Json.arr items => parseItems products items
      | _ => Except.ok []
  | _, _ => Except.ok []

/-- Python `key in cache` / `cache[key]` on the service's dict. -/
def lookupCache : List (String × RecommendationResult) → String → Option RecommendationResult
  | [], _ => none
  | p :: rest, k => if p.1 = k then some p.2 else lookupCache rest k

/-- Python `cache[key] = value`: replace the binding if present, else add
it. -/
def setKey : List (String × RecommendationResult) → String → RecommendationResult →
    List (String × RecommendationResult)
  | [], k, v => [(k, v)]
  | p :: rest, k, v => if p.1 = k then (k, v) :: rest else p :: setKey rest k v

/-- `LLMService.generate_recommendations` (lines 106-124): build the
prompt, hash it, serve from cache on a hit; otherwise call the model
(failures caught and converted to an error dict, not cached), parse the
response (whose AttributeError would propagate to the caller), cache and
return the success result. -/
def generate_recommendations (md5hex : String → String)
    (run : String → Except String (List String)) (svc : LLMService)
    (preferences : Preferences) (browsing_history : List String)
    (products : List Product) : Except String (RecommendationResult × LLMService) :=
  let prompt := _create_recommendation_prompt preferences browsing_history products
  let key := md5hex prompt
  match lookupCache svc.cache key with
  | some cached => Except.ok (cached, svc)
  | none =>
    match _call_llm run prompt with
    | Except.error e => Except.ok ({ recommendations := [], count := 0, error := some e }, svc)
    | Except.ok raw_output =>
      match _parse_recommendation_response raw_output products with
      | Except.error e => Except.error e
      | Except.ok recommendations =>
        let result : RecommendationResult :=
          { recommendations := recommendations, count := recommendations.length, error := none }
        Except.ok (result, { cache := setKey svc.cache key result })

/-- `filter_products` (src/app.py lines 18-47): filter by price band, then
by selected categories, then by selected brands; empty selections apply no
filter. -/
def filter_products (products : List Product) (preferences : Preferences) : List Product :=
  let price_range := preferences.priceRange
  let filtered :=
    if price_range ≠ "all" then
      if price_range = "0-50" then products.filter (fun p => p.price ≤ 50)
      else if price_range = "50-100" then
        products.filter (fun p => 50 < p.price && p.price ≤ 100)
      else if price_range = "100+" then products.filter (fun p => 100 < p.price)
      else products
    else products
  let filtered2 :=
    if preferences.categories ≠ [] then
      filtered.filter (fun p => preferences.categories.contains p.category)
    else filtered
  if preferences.brands ≠ [] then
    filtered2.filter (fun p => preferences.brands.contains p.brand)
  else filtered2

/-- `ProductService.get_product_by_id` (src/services/product_service.py
lines 20-24): scan the catalog in order and return the first product whose
id matches, else None. -/
def get_product_by_id : List Product → String → Option Product
  | [], _ => none
  | product :: rest, product_id =>
    if product.id = product_id then some product else get_product_by_id rest product_id

/-- Well-formed cache: every stored value is a success result, i.e. has no
error field and a count equal to its number of recommendations.  The code
only ever stores such values (failures are returned, never cached). -/
def cacheWF (cache : List (String × RecommendationResult)) : Prop :=
  ∀ p ∈ cache, p.2.error = none ∧ p.2.count = p.2.recommendations.length

/-- Spec-side comparator for the parser loop: the recommendation produced
by one array element, `none` when its id resolves to no catalog product.
`List.filterMap` of this function is the spec's order-preserving
description of the loop's output. -/
def resolveItem (products : List Product) (fields : List (String × Json)) :
    Option Recommendation :=
  (products.find? (fun p => idMatches (jget fields "id") p.id)).map
    (fun p =>
      { product := p, explanation := (jget fields "explanation").getD (Json.str ""),
        confidence_score := (jget fields "confidence_score").getD (Json.num 5) })

/-- The sample product from the repository's own `__main__` test block. -/
def prodA : Product :=
  { id := "prod001", name := "Ultra-Comfort Running Shoes", category := "Footwear",
    brand := "SportsFlex", price := 89.99,
    tags := ["running", "athletic", "comfortable", "lightweight"] }

/-- Concrete Footwear product priced 40. -/
def shoe40 : Product :=
  { id := "shoe40", name := "Budget Shoe", category := "Footwear", brand := "BrandA",
    price := 40, tags := [] }

/-- Concrete Footwear product priced 60. -/
def shoe60 : Product :=
  { id := "shoe60", name := "Mid Shoe", category := "Footwear", brand := "BrandB",
    price := 60, tags := [] }

/-- Concrete Footwear product priced 120. -/
def shoe120 : Product :=
  { id := "shoe120", name := "Premium Shoe", category := "Footwear", brand := "BrandC",
    price := 120, tags := [] }

/-- Preferences selecting the 50-100 price band and the Footwear category. -/
def prefsMid : Preferences :=
  { priceRange := "50-100", categories := ["Footwear"], brands := [] }

/-- Preferences applying no filter at all. -/
def prefsAll : Preferences :=
  { priceRange := "all", categories := [], brands := [] }

/-- First product of a duplicated-id pair. -/
def dupFirst : Product :=
  { id := "dup01", name := "First Copy", category := "Footwear", brand := "X",
    price := 10, tags := [] }

/-- Second product of a duplicated-id pair. -/
def dupSecond : Product :=
  { id := "dup01", name := "Second Copy", category := "Footwear", brand := "Y",
    price := 20, tags := [] }

/-- A product with an unrelated id. -/
def otherProd : Product :=
  { id := "other", name := "Other", category := "Misc", brand := "Z",
    price := 5, tags := [] }

/-- Six-product catalog. -/
def catalogSix : List Product :=
  [shoe40, shoe60, shoe120, dupFirst, dupSecond, otherProd]

/-- The same catalog truncated after its fifth entry. -/
def catalogFive : List Product :=
  [shoe40, shoe60, shoe120, dupFirst, dupSecond]

/-- The raw model response of the spec's worked example. -/
def exampleRaw : String :=
  "Sure! Here are my picks: [\x7b\"id\":\"prod001\",\"explanation\":\"Matches running preference\",\"confidence_score\":8\x7d] Hope this helps!"

/-- A minimal raw response resolving to the catalog product `prodA`. -/
def smallRaw : String :=
  "[\x7b\"id\": \"prod001\"\x7d]"

/-- The recommendation produced by parsing `smallRaw` against `[prodA]`. -/
def recSmall : Recommendation :=
  { product := prodA, explanation := Json.str "", confidence_score := Json.num 5 }

/-- A constant hash function standing in for `hashlib.md5 ... hexdigest` in
concrete runs. -/
def hashK : String → String := fun _ => "key"

/-- An oracle whose response contains no JSON array. -/
def runOkNoJson : String → Except String (List String) := fun _ => Except.ok ["no json"]

/-- An oracle whose remote call fails with message "down". -/
def runDown : String → Except String (List String) := fun _ => Except.error "down"

/-- The empty-cache service state. -/
def svcEmpty : LLMService := { cache := [] }

/-- The zero-recommendation success result. -/
def emptyResult : RecommendationResult :=
  { recommendations := [], count := 0, error := none }

/-- The service state after caching `emptyResult` under key "key". -/
def svcAfter : LLMService := { cache := [("key", emptyResult)] }

/-- The failure result produced when the remote call fails with "down". -/
def failDown : RecommendationResult :=
  { recommendations := [], count := 0, error := some "Error calling Replicate model: down" }

/-- Helper: `lookupCache` after `setKey` at the same key finds the stored
value. -/
theorem lookupCache_setKey_self (cache : List (String × RecommendationResult))
    (k : String) (v : RecommendationResult) :
    lookupCache (setKey cache k v) k = some v := by
  induction cache with
  | nil => simp [setKey, lookupCache]
  | cons p rest ih =>
    by_cases h : p.1 = k
    · simp [setKey, lookupCache, h]
    · simp [setKey, lookupCache, h, ih]

/-- Helper: a hit in a well-formed cache yields a success-shaped result. -/
theorem lookupCache_wf (cache : List (String × RecommendationResult)) (k : String)
    (v : RecommendationResult) (hwf : cacheWF cache) (h : lookupCache cache k = some v) :
    v.error = none ∧ v.count = v.recommendations.length := by
  induction cache with
  | nil => simp [lookupCache] at h
  | cons p rest ih =>
    by_cases hk : p.1 = k
    · simp [lookupCache, hk] at h
      exact h ▸ hwf p (List.mem_cons_self p rest)
    · simp [lookupCache, hk] at h
      exact ih (fun q hq => hwf q (List.mem_cons_of_mem p hq)) h

/-- Helper: `setKey` with a success-shaped value preserves cache
well-formedness. -/
theorem cacheWF_setKey (cache : List (String × RecommendationResult)) (k : String)
    (v : RecommendationResult) (hwf : cacheWF cache)
    (hv : v.error = none ∧ v.count = v.recommendations.length) :
    cacheWF (setKey cache k v) := by
  induction cache with
  | nil =>
    intro q hq
    simp [setKey] at hq
    simp [hq, hv]
  | cons p rest ih =>
    intro q hq
    by_cases hk : p.1 = k
    · simp [setKey, hk] at hq
      rcases hq with hq | hq
      · simp [hq, hv]
      · exact hwf q (List.mem_cons_of_mem p hq)
    · simp [setKey, hk] at hq
      rcases hq with hq | hq
      · exact hwf q (by simp [hq])
      · exact ih (fun x hx => hwf x (List.mem_cons_of_mem p hx)) q hq

/-- C5: the prompt builder is deterministic and depends only on the
preferences, the browsing history, and the first five catalog entries:
equal preferences and history and catalogs with equal `take 5` prefixes
produce byte-identical prompt strings, whatever the catalogs hold beyond
index 5. -/
theorem prompt_first_five_stable (P1 P2 : Preferences) (H1 H2 : List String)
    (Cat1 Cat2 : List Product) (hP : P1 = P2) (hH : H1 = H2)
    (h5 : Cat1.take 5 = Cat2.take 5) :
    _create_recommendation_prompt P1 H1 Cat1 = _create_recommendation_prompt P2 H2 Cat2 := by
  subst hP; subst hH
  simp only [_create_recommendation_prompt, h5]

/-- Witness for `prompt_first_five_stable`: a six-product catalog and its
five-product truncation give the same prompt. -/
theorem prompt_first_five_stable_witness :
    _create_recommendation_prompt prefsAll ["prod001"] catalogSix =
      _create_recommendation_prompt prefsAll ["prod001"] catalogFive :=
  prompt_first_five_stable prefsAll prefsAll ["prod001"] ["prod001"] catalogSix catalogFive
    rfl rfl (by decide)

/-- C8: preferences with price band "50-100", category selection
["Footwear"] and no brand selection filter the catalog of Footwear
products priced 40, 60, 120 to exactly the 60-priced product; the band
keeps exactly the prices strictly above 50 and at most 100, and an empty
category/brand selection applies no filter. -/
theorem filter_products_band_example :
    filter_products [shoe40, shoe60, shoe120] prefsMid = [shoe60] ∧
    (∀ (products : List Product) (prefs : Preferences), prefs.priceRange = "50-100" →
      ∀ p ∈ filter_products products prefs, 50 < p.price ∧ p.price ≤ 100) ∧
    (∀ products : List Product, filter_products products prefsAll = products) := by
  refine ⟨by decide, ?_, ?_⟩
  · intro products prefs hpr p hp
    simp only [filter_products, hpr,
      eq_true (show ("50-100" : String) ≠ "all" from by decide),
      eq_false (show ¬ (("50-100" : String) = "0-50") from by decide),
      eq_true (show ("50-100" : String) = "50-100" from rfl),
      if_true, if_false] at hp
    have hmem : p ∈ products.filter (fun q => decide (50 < q.price) && decide (q.price ≤ 100)) := by
      split at hp
      · split at hp
        · exact (List.mem_filter.mp (List.mem_filter.mp hp).1).1
        · exact (List.mem_filter.mp hp).1
      · split at hp
        · exact (List.mem_filter.mp hp).1
        · exact hp
    have hb := (List.mem_filter.mp hmem).2
    rw [Bool.and_eq_true] at hb
    exact ⟨of_decide_eq_true hb.1, of_decide_eq_true hb.2⟩
  · intro products
    simp [filter_products, prefsAll]

/-- Witness for `filter_products_band_example`: the band bound applied to
the concrete catalog. -/
theorem filter_products_band_example_witness :
    50 < shoe60.price ∧ shoe60.price ≤ 100 :=
  filter_products_band_example.2.1 [shoe40, shoe60, shoe120] prefsMid rfl shoe60
    (by decide)

/-- C10: `get_product_by_id` returns None exactly when no catalog product
has the given id and otherwise the earliest matching product; the parser's
`next(...)` id resolution computes the same first-match lookup, so with
duplicate ids the earliest record wins. -/
theorem get_product_by_id_first_match :
    (∀ (products : List Product) (pid : String),
      get_product_by_id products pid = none ↔ ∀ p ∈ products, p.id ≠ pid) ∧
    (∀ (pre : List Product) (p : Product) (post : List Product) (pid : String),
      (∀ q ∈ pre, q.id ≠ pid) → p.id = pid →
      get_product_by_id (pre ++ p :: post) pid = some p) ∧
    (∀ (products : List Product) (s : String),
      products.find? (fun p => idMatches (some (Json.str s)) p.id) =
        get_product_by_id products s) := by
  refine ⟨?_, ?_, ?_⟩
  · intro products pid
    induction products with
    | nil => simp [get_product_by_id]
    | cons p rest ih =>
      by_cases h : p.id = pid
      · simp [get_product_by_id, h]
      · simp [get_product_by_id, h, ih]
  · intro pre p post pid hpre hp
    induction pre with
    | nil => simp [get_product_by_id, hp]
    | cons q rest ih =>
      have hq : q.id ≠ pid := hpre q (List.mem_cons_self q rest)
      simp only [List.cons_append, get_product_by_id, hq, if_false]
      exact ih (fun x hx => hpre x (List.mem_cons_of_mem q hx))
  · intro products s
    have hfun : (fun p : Product => idMatches (some (Json.str s)) p.id) =
        fun p : Product => decide (p.id = s) := by
      funext q
      simp [idMatches]
    rw [hfun]
    induction products with
    | nil => rfl
    | cons p rest ih =>
      by_cases h : p.id = s
      · rw [List.find?_cons_of_pos _ (by simpa using h), get_product_by_id, if_pos h]
      · rw [List.find?_cons_of_neg _ (by simpa using h), get_product_by_id, if_neg h, ih]

/-- Witness for `get_product_by_id_first_match`: with two products sharing
id "dup01" behind an unrelated product, lookup returns the first copy. -/
theorem get_product_by_id_first_match_witness :
    get_product_by_id [otherProd, dupFirst, dupSecond] "dup01" = some dupFirst :=
  get_product_by_id_first_match.2.1 [otherProd] dupFirst [dupSecond] "dup01"
    (by decide) (by decide)

/-- Helper: the products placed in the parser loop's output are catalog
members. -/
theorem parseItems_mem (products : List Product) :
    ∀ (items : List Json) (recs : List Recommendation),
      parseItems products items = Except.ok recs → ∀ r ∈ recs, r.product ∈ products := by
  intro items
  induction items with
  | nil =>
    intro recs h r hr
    simp only [parseItems] at h
    cases h
    cases hr
  | cons item rest ih =>
    intro recs h r hr
    match item with
    | Json.null => simp [parseItems] at h
    | Json.bool b => simp [parseItems] at h
    | Json.num q => simp [parseItems] at h
    | Json.str s => simp [parseItems] at h
    | Json.arr xs => simp [parseItems] at h
    | Json.obj fields =>
      simp only [parseItems] at h
      cases hf : products.find? (fun p => idMatches (jget fields "id") p.id) with
      | none =>
        rw [hf] at h
        exact ih recs h r hr
      | some q =>
        rw [hf] at h
        cases hrest : parseItems products rest with
        | error e => rw [hrest] at h; simp [Except.map] at h
        | ok recs' =>
          rw [hrest] at h
          simp only [Except.map] at h
          cases h
          rcases List.mem_cons.mp hr with hr | hr
          · subst hr
            exact List.mem_of_find?_eq_some hf
          · exact ih recs' hrest r hr

/-- C4: every recommendation returned by the response parser carries a
product resolved from the catalog; an array element whose id resolves to
no catalog product is skipped without failing the batch, and an array with
one resolvable and one unresolvable id yields exactly a one-element
list. -/
theorem parser_output_in_catalog :
    (∀ (raw : String) (products : List Product) (recs : List Recommendation),
      _parse_recommendation_response raw products = Except.ok recs →
      ∀ r ∈ recs, r.product ∈ products) ∧
    (∀ (products : List Product) (fields : List (String × Json)) (rest : List Json),
      products.find? (fun p => idMatches (jget fields "id") p.id) = none →
      parseItems products (Json.obj fields :: rest) = parseItems products rest) ∧
    parseItems [prodA]
        [Json.obj [("id", Json.str "prod001")], Json.obj [("id", Json.str "nope")]] =
      Except.ok [recSmall] := by
  refine ⟨?_, ?_, by rfl⟩
  · intro raw products recs h r hr
    simp only [_parse_recommendation_response] at h
    cases h1 : str_find raw.toList '[' with
    | none => rw [h1] at h; cases h2 : str_rfind raw.toList ']' <;> rw [h2] at h <;>
        cases h <;> cases hr
    | some start =>
      rw [h1] at h
      cases h2 : str_rfind raw.toList ']' with
      | none => rw [h2] at h; cases h; cases hr
      | some stop =>
        rw [h2] at h
        dsimp only at h
        cases h3 : json_loads (String.mk ((raw.toList.drop start).take (stop + 1 - start))) with
        | none => rw [h3] at h; cases h; cases hr
        | some parsed =>
          rw [h3] at h
          match parsed with
          | Json.null => cases h; cases hr
          | Json.bool b => cases h; cases hr
          | Json.num q => cases h; cases hr
          | Json.str s => cases h; cases hr
          | Json.obj fs => cases h; cases hr
          | Json.arr items => exact parseItems_mem products items recs h r hr
  · intro products fields rest hf
    simp only [parseItems, hf]

/-- Witness for `parser_output_in_catalog`: the product of the single
recommendation parsed from `smallRaw` is a member of the one-product
catalog. -/
theorem parser_output_in_catalog_witness : recSmall.product ∈ [prodA] :=
  parser_output_in_catalog.1 smallRaw [prodA] [recSmall] (by rfl) recSmall
    (List.mem_singleton.mpr rfl)

/-- C9: the parser preserves response order: on a parsed array of objects
the loop's output is exactly the order-preserving `List.filterMap` of the
per-element resolution, with no sorting or other reordering. -/
theorem parser_preserves_order (products : List Product)
    (objs : List (List (String × Json))) :
    parseItems products (objs.map Json.obj) =
      Except.ok (objs.filterMap (resolveItem products)) := by
  induction objs with
  | nil => rfl
  | cons fields rest ih =>
    simp only [List.map, List.filterMap, parseItems]
    cases hf : products.find? (fun p => idMatches (jget fields "id") p.id) with
    | none => simp [resolveItem, hf, ih]
    | some p => simp [resolveItem, hf, ih, Except.map]

/-- C7: parsing the worked example's raw text against a catalog containing
prod001 yields exactly one recommendation holding that catalog record,
explanation "Matches running preference", and confidence score 8; for any
element, a missing explanation defaults to the empty string and a missing
confidence score to 5. -/
theorem parse_example_response :
    _parse_recommendation_response exampleRaw [prodA] =
      Except.ok [{ product := prodA, explanation := Json.str "Matches running preference",
                   confidence_score := Json.num 8 }] ∧
    (∀ (products : List Product) (fields : List (String × Json)) (rest : List Json)
        (p : Product),
      jget fields "explanation" = none → jget fields "confidence_score" = none →
      products.find? (fun q => idMatches (jget fields "id") q.id) = some p →
      parseItems products (Json.obj fields :: rest) =
        (parseItems products rest).map
          (fun recs =>
            { product := p, explanation := Json.str "",
              confidence_score := Json.num 5 } :: recs)) := by
  refine ⟨by rfl, ?_⟩
  intro products fields rest p h1 h2 hf
  simp only [parseItems, h1, h2, hf, Option.getD]

/-- Witness for `parse_example_response`: a one-element array whose object
carries only an id resolves with the defaulted explanation and score. -/
theorem parse_example_response_witness :
    parseItems [prodA] [Json.obj [("id", Json.str "prod001")]] =
      (parseItems [prodA] ([] : List Json)).map
        (fun recs =>
          { product := prodA, explanation := Json.str "",
            confidence_score := Json.num 5 } :: recs) :=
  parse_example_response.2 [prodA] [("id", Json.str "prod001")] [] prodA
    (by rfl) (by rfl) (by rfl)

/-- C3 counterexample: the raw text "[1]" extracts and decodes to the JSON
array [1], whose non-dict element makes `item.get("id")` raise
AttributeError; the exception escapes the parser and, through
`generate_recommendations`, the pipeline. -/
theorem parse_nondict_element_raises :
    _parse_recommendation_response "[1]" [] =
      Except.error "AttributeError: object has no attribute get" ∧
    generate_recommendations hashK (fun _ => Except.ok ["[1]"]) svcEmpty
        prefsAll [] [] =
      Except.error "AttributeError: object has no attribute get" :=
  ⟨rfl, rfl⟩

/-- C3 (amended): for every raw response text whose extracted JSON array,
if any, contains only object elements, the parser returns a
recommendation list without raising; in particular, when the text has no
'['/']' pair, or the extracted substring fails to decode as JSON, or it
decodes to a non-array, the parser returns the empty list, and the
pipeline (on a cache miss) then returns a successful RecommendationResult
with count 0 and no error field.  (An array element that is not an object
raises AttributeError, per the counterexample.) -/
theorem parse_fallback_cases (raw : String) (products : List Product) :
    (str_find raw.toList '[' = none ∨ str_rfind raw.toList ']' = none →
      _parse_recommendation_response raw products = Except.ok []) ∧
    (∀ start stop, str_find raw.toList '[' = some start →
      str_rfind raw.toList ']' = some stop →
      json_loads (String.mk ((raw.toList.drop start).take (stop + 1 - start))) = none →
      _parse_recommendation_response raw products = Except.ok []) ∧
    (∀ start stop j, str_find raw.toList '[' = some start →
      str_rfind raw.toList ']' = some stop →
      json_loads (String.mk ((raw.toList.drop start).take (stop + 1 - start))) = some j →
      (∀ items, j ≠ Json.arr items) →
      _parse_recommendation_response raw products = Except.ok []) ∧
    (∀ items : List Json, (∀ i ∈ items, ∃ fields, i = Json.obj fields) →
      ∃ recs, parseItems products items = Except.ok recs) ∧
    (∀ (md5hex : String → String) (run : String → Except String (List String))
        (svc : LLMService) (P : Preferences) (H : List String),
      lookupCache svc.cache (md5hex (_create_recommendation_prompt P H products)) = none →
      _call_llm run (_create_recommendation_prompt P H products) = Except.ok raw →
      _parse_recommendation_response raw products = Except.ok [] →
      generate_recommendations md5hex run svc P H products =
        Except.ok ({ recommendations := [], count := 0, error := none },
          { cache := setKey svc.cache (md5hex (_create_recommendation_prompt P H products))
              { recommendations := [], count := 0, error := none } })) := by
  refine ⟨?_, ?_, ?_, ?_, ?_⟩
  · intro h
    simp only [_parse_recommendation_response]
    rcases h with h | h
    · rw [h]
    · rw [h]
      cases str_find raw.toList '[' <;> rfl
  · intro start stop h1 h2 h3
    simp only [_parse_recommendation_response, h1, h2, h3]
  · intro start stop j h1 h2 h3 hj
    simp only [_parse_recommendation_response, h1, h2, h3]
  · intro items hobj
    induction items with
    | nil => exact ⟨[], rfl⟩
    | cons i rest ih =>
      rcases hobj i (List.mem_cons_self i rest) with ⟨fields, hi⟩
      subst hi
      rcases ih (fun x hx => hobj x (List.mem_cons_of_mem _ hx)) with ⟨recs, hrecs⟩
      simp only [parseItems]
      cases hf : products.find? (fun p => idMatches (jget fields "id") p.id) with
      | none => exact ⟨recs, hrecs⟩
      | some p => exact ⟨_, by rw [hrecs]; rfl⟩
  · intro md5hex run svc P H hmiss hcall hparse
    simp only [generate_recommendations, hmiss, hcall, hparse]
    rfl

/-- Witness for `parse_fallback_cases`: a bracket-free response parses to
the empty list. -/
theorem parse_fallback_cases_witness :
    _parse_recommendation_response "no json here" [] = Except.ok [] :=
  (parse_fallback_cases "no json here" []).1 (Or.inl (by rfl))

/-- C1: if a first call to `generate_recommendations` returns normally with
a result carrying no error field, a second call with identical inputs and
the same hash returns that exact result and leaves the state unchanged,
for EVERY oracle `run2` — the cached reply is independent of the remote
service, so the remote call is issued at most once across the two calls
and neither invocation nor parsing is repeated. -/
theorem generate_second_call_cached (md5hex : String → String)
    (run : String → Except String (List String)) (svc : LLMService)
    (P : Preferences) (H : List String) (C : List Product)
    (r : RecommendationResult) (svc' : LLMService)
    (h : generate_recommendations md5hex run svc P H C = Except.ok (r, svc'))
    (hsucc : r.error = none) :
    ∀ run2 : String → Except String (List String),
      generate_recommendations md5hex run2 svc' P H C = Except.ok (r, svc') := by
  intro run2
  simp only [generate_recommendations] at h ⊢
  cases hl : lookupCache svc.cache (md5hex (_create_recommendation_prompt P H C)) with
  | some cached =>
    rw [hl] at h
    simp only [Except.ok.injEq, Prod.mk.injEq] at h
    rcases h with ⟨hres, hsvc⟩
    subst hres
    subst hsvc
    rw [hl]
  | none =>
    rw [hl] at h
    dsimp only at h
    cases hc : _call_llm run (_create_recommendation_prompt P H C) with
    | error e =>
      rw [hc] at h
      dsimp only at h
      simp only [Except.ok.injEq, Prod.mk.injEq] at h
      rw [← h.1] at hsucc
      simp at hsucc
    | ok raw =>
      rw [hc] at h
      dsimp only at h
      cases hp : _parse_recommendation_response raw C with
      | error e =>
        rw [hp] at h
        simp at h
      | ok recs =>
        rw [hp] at h
        dsimp only at h
        simp only [Except.ok.injEq, Prod.mk.injEq] at h
        rcases h with ⟨hr, hsvc⟩
        subst hr
        subst hsvc
        rw [lookupCache_setKey_self]

/-- Witness for `generate_second_call_cached`: after a successful first
call on the empty cache, the second call returns the cached result even
though its oracle would fail. -/
theorem generate_second_call_cached_witness :
    generate_recommendations hashK runDown svcAfter prefsAll [] [] =
      Except.ok (emptyResult, svcAfter) :=
  generate_second_call_cached hashK runOkNoJson svcEmpty prefsAll [] [] emptyResult svcAfter
    (by rfl) (by rfl) runDown

/-- C2: when the remote call raises, `generate_recommendations` does not
propagate the exception but returns the failure dict with empty
recommendations, count 0 and the wrapped cause message, and returns the
service state unchanged — the failure is not cached, so a second identical
call attempts the invocation again (its outcome is again dictated by its
oracle, not by a cached failure). -/
theorem generate_failure_not_cached (md5hex : String → String)
    (run : String → Except String (List String)) (svc : LLMService)
    (P : Preferences) (H : List String) (C : List Product) (e : String)
    (hmiss : lookupCache svc.cache (md5hex (_create_recommendation_prompt P H C)) = none)
    (hfail : run (_create_recommendation_prompt P H C) = Except.error e) :
    generate_recommendations md5hex run svc P H C =
      Except.ok ({ recommendations := [], count := 0,
                   error := some ("Error calling Replicate model: " ++ e) }, svc) ∧
    (∀ (run2 : String → Except String (List String)) (e2 : String),
      run2 (_create_recommendation_prompt P H C) = Except.error e2 →
      generate_recommendations md5hex run2 svc P H C =
        Except.ok ({ recommendations := [], count := 0,
                     error := some ("Error calling Replicate model: " ++ e2) }, svc)) := by
  have main : ∀ (run2 : String → Except String (List String)) (e2 : String),
      run2 (_create_recommendation_prompt P H C) = Except.error e2 →
      generate_recommendations md5hex run2 svc P H C =
        Except.ok ({ recommendations := [], count := 0,
                     error := some ("Error calling Replicate model: " ++ e2) }, svc) := by
    intro run2 e2 hf
    simp only [generate_recommendations, hmiss, _call_llm, hf]
  exact ⟨main run e hfail, main⟩

/-- Witness for `generate_failure_not_cached`: a failing oracle on the
empty cache yields the failure result and leaves the state empty. -/
theorem generate_failure_not_cached_witness :
    generate_recommendations hashK runDown svcEmpty prefsAll [] [] =
      Except.ok (failDown, svcEmpty) :=
  (generate_failure_not_cached hashK runDown svcEmpty prefsAll [] [] "down"
    (by rfl) (by rfl)).1

/-- C6: starting from a well-formed cache, every value returned normally
by `generate_recommendations` is either a success (no error field, count
equal to the number of recommendations) or a failure (empty
recommendations, count 0, an error string) — the two distinguished by the
presence of the error field — and the resulting cache is again
well-formed, so the property holds across successive calls. -/
theorem generate_result_invariant (md5hex : String → String)
    (run : String → Except String (List String)) (svc : LLMService)
    (P : Preferences) (H : List String) (C : List Product)
    (r : RecommendationResult) (svc' : LLMService)
    (hwf : cacheWF svc.cache)
    (h : generate_recommendations md5hex run svc P H C = Except.ok (r, svc')) :
    ((r.error = none ∧ r.count = r.recommendations.length) ∨
      (r.recommendations = [] ∧ r.count = 0 ∧ ∃ s, r.error = some s)) ∧
    cacheWF svc'.cache := by
  simp only [generate_recommendations] at h
  cases hl : lookupCache svc.cache (md5hex (_create_recommendation_prompt P H C)) with
  | some cached =>
    rw [hl] at h
    simp only [Except.ok.injEq, Prod.mk.injEq] at h
    rcases h with ⟨hres, hsvc⟩
    subst hres
    subst hsvc
    exact ⟨Or.inl (lookupCache_wf _ _ _ hwf hl), hwf⟩
  | none =>
    rw [hl] at h
    dsimp only at h
    cases hc : _call_llm run (_create_recommendation_prompt P H C) with
    | error e =>
      rw [hc] at h
      dsimp only at h
      simp only [Except.ok.injEq, Prod.mk.injEq] at h
      rcases h with ⟨hres, hsvc⟩
      subst hres
      subst hsvc
      exact ⟨Or.inr ⟨rfl, rfl, e, rfl⟩, hwf⟩
    | ok raw =>
      rw [hc] at h
      dsimp only at h
      cases hp : _parse_recommendation_response raw C with
      | error e =>
        rw [hp] at h
        simp at h
      | ok recs =>
        rw [hp] at h
        dsimp only at h
        simp only [Except.ok.injEq, Prod.mk.injEq] at h
        rcases h with ⟨hres, hsvc⟩
        subst hres
        subst hsvc
        exact ⟨Or.inl ⟨rfl, rfl⟩, cacheWF_setKey _ _ _ hwf ⟨rfl, rfl⟩⟩

/-- Witness for `generate_result_invariant`: the failure result of a
failing oracle satisfies the disjunction and leaves the empty cache
well-formed. -/
theorem generate_result_invariant_witness :
    ((failDown.error = none ∧ failDown.count = failDown.recommendations.length) ∨
      (failDown.recommendations = [] ∧ failDown.count = 0 ∧ ∃ s, failDown.error = some s)) ∧
    cacheWF svcEmpty.cache :=
  generate_result_invariant hashK runDown svcEmpty prefsAll [] [] failDown svcEmpty
    (fun p hp => absurd hp (List.not_mem_nil p)) (by rfl)
